import Mathlib

/-!
Verification of the document-analysis and normalization core of the
RESUME-MAKER-WEBSITE repository (src/app.py).

The Python helpers are shallowly embedded over Lean `String`/`List Char`:
`str.strip`, `str.title`, `str.replace` and `re.split` on the class `[,\s]+` are
modelled character-by-character for the ASCII inputs the application handles,
and `json.loads` is modelled by an executable recursive-descent reader of the
integer/string/array/object subset the analysis contract uses.  The external
reasoning engine (`model.generate_content`) is modelled by its outcome, an
`Except String String` (exception message or reply text), and a PDF document
by the outcome of its page iteration.
-/

namespace ResumeMaker

/-! ### Python string primitives (ASCII model) -/

/-- Whitespace characters recognised by Python `str.strip()` (ASCII range). -/
def isPySpace (c : Char) : Bool :=
  c = ' ' || c = '\t' || c = '\n' || c = '\r' || c = '\x0b' || c = '\x0c'

/-- Model of Python `str.strip()` on the character list. -/
def pyStripList (l : List Char) : List Char :=
  ((l.dropWhile isPySpace).reverse.dropWhile isPySpace).reverse

/-- Model of Python `str.strip()`. -/
def pyStrip (s : String) : String :=
  String.mk (pyStripList s.toList)

/-- Core loop of Python `str.title()`: the flag records whether the previous
character was cased (a letter, in the ASCII model); a letter after an uncased
character is uppercased, a letter after a cased character is lowercased. -/
def titleGo : List Char → Bool → List Char
  | [], _ => []
  | c :: rest, prevCased =>
    if c.isAlpha then
      (if prevCased then c.toLower else c.toUpper) :: titleGo rest true
    else
      c :: titleGo rest false

/-- Model of Python `str.title()` (ASCII). -/
def pyTitle (s : String) : String :=
  String.mk (titleGo s.toList false)

/-- Fuelled scan of Python `str.replace(pat, repl)`: left-to-right,
non-overlapping, the replacement text is not rescanned.  One unit of fuel is
spent per scan step and every step consumes at least one character of the
input (our patterns are never empty), so fuel `= input length` suffices. -/
def replaceGo (pat repl : List Char) : Nat → List Char → List Char
  | 0, s => s
  | _ + 1, [] => []
  | n + 1, c :: rest =>
    if pat.isPrefixOf (c :: rest) then
      repl ++ replaceGo pat repl n (List.drop pat.length (c :: rest))
    else
      c :: replaceGo pat repl n rest

/-- Model of Python `str.replace(pat, repl)` (for non-empty `pat`). -/
def pyReplace (s pat repl : String) : String :=
  String.mk (replaceGo pat.toList repl.toList s.toList.length s.toList)

/-- Delimiter class of the regex `[,\s]` used by `smart_format_skills`. -/
def isDelim (c : Char) : Bool :=
  c = ',' || isPySpace c

/-- Fuelled loop of the model of `re.split` with pattern `[,\s]+`: each maximal run of
delimiter characters is one split point, so adjacent delimiters do not create
interior empty fragments; a leading or trailing run still yields a leading or
trailing empty fragment, exactly as `re.split` does.  Every recursive step
strictly shortens the list, so fuel `= length + 1` never runs out. -/
def splitDelimGo : Nat → List Char → List (List Char)
  | 0, _ => []
  | fuel + 1, l =>
    let part := l.takeWhile (fun c => !isDelim c)
    match l.dropWhile (fun c => !isDelim c) with
    | [] => [part]
    | _ :: tail => part :: splitDelimGo fuel (tail.dropWhile isDelim)

/-- Model of Python `re.split` with pattern `[,\s]+` on the character list. -/
def splitDelimRuns (l : List Char) : List (List Char) :=
  splitDelimGo (l.length + 1) l

/-! ### The smart text formatters (src/app.py, lines 131-144) -/

/-- Embedding of `smart_format_text` (app.py lines 131-137):
`if not text: return ""` (a `None` or empty field is modelled by `""`),
then `text.strip().title()`, then
`text.replace(" Uni ", " University ").replace(" Uni", " University")`. -/
def smart_format_text (text : String) : String :=
  if text = "" then ""
  else
    let t := pyTitle (pyStrip text)
    pyReplace (pyReplace t " Uni " " University ") " Uni" " University"

/-- Embedding of `smart_format_skills` (app.py lines 139-144):
`parts = re.split(..., text)` on the `[,\s]+` class;
`clean_parts = [p.strip().title() for p in parts if p.strip()]`;
`return ", ".join(clean_parts)`. -/
def smart_format_skills (text : String) : String :=
  if text = "" then ""
  else
    let parts := (splitDelimRuns text.toList).map (fun cs => String.mk cs)
    let clean_parts :=
      (parts.filter (fun p => pyStrip p != "")).map (fun p => pyTitle (pyStrip p))
    String.intercalate ", " clean_parts

/-! ### JSON values and a model of `json.loads` -/

/-- JSON values, as produced by the `json.loads` model.  Numbers are limited to
integers, the only numeric form the analysis contract uses; objects keep their
key/value pairs in source order. -/
inductive Json where
  | null : Json
  | bool : Bool → Json
  | num : Int → Json
  | str : String → Json
  | arr : List Json → Json
  | obj : List (String × Json) → Json

/-- Python `dict` lookup on a parsed object (with a later duplicate key
shadowing an earlier one, as in `dict` construction); `none` when the key is
absent or the value is not an object. -/
def dictGet (j : Json) (k : String) : Option Json :=
  match j with
  | Json.obj fields => (fields.reverse.find? (fun p => p.1 = k)).map Prod.snd
  | _ => none

/-- Whitespace skipped between JSON tokens. -/
def isJsonWs (c : Char) : Bool :=
  c = ' ' || c = '\t' || c = '\n' || c = '\r'

/-- Skip JSON inter-token whitespace. -/
def skipWs (l : List Char) : List Char :=
  l.dropWhile isJsonWs

/-- Read a JSON string literal body (the opening quote already consumed),
accumulating decoded characters in reverse; supports the escapes the analysis
payloads use. -/
def readStrBody : List Char → List Char → Option (String × List Char)
  | [], _ => none
  | '"' :: rest, acc => some (String.mk acc.reverse, rest)
  | '\\' :: e :: rest, acc =>
    match e with
    | '"' => readStrBody rest ('"' :: acc)
    | '\\' => readStrBody rest ('\\' :: acc)
    | '/' => readStrBody rest ('/' :: acc)
    | 'n' => readStrBody rest ('\n' :: acc)
    | 't' => readStrBody rest ('\t' :: acc)
    | 'r' => readStrBody rest ('\r' :: acc)
    | _ => none
  | c :: rest, acc => readStrBody rest (c :: acc)

/-- Read a run of decimal digits as a natural number. -/
def readDigits (l : List Char) : Option (Nat × List Char) :=
  let ds := l.takeWhile Char.isDigit
  if ds.isEmpty then none
  else some (ds.foldl (fun a c => a * 10 + (c.toNat - 48)) 0, l.dropWhile Char.isDigit)

/-- Read a JSON integer (optional minus sign followed by digits). -/
def readNum : List Char → Option (Json × List Char)
  | '-' :: rest => (readDigits rest).map (fun p => (Json.num (-(p.1 : Int)), p.2))
  | l => (readDigits l).map (fun p => (Json.num (p.1 : Int), p.2))

mutual

/-- Fuelled recursive-descent reader for a JSON value.  Fuel is spent once per
recursive call and at least one input character is consumed per two calls, so
the fuel `2 * length + 2` supplied by the wrapper never runs out. -/
def readVal : Nat → List Char → Option (Json × List Char)
  | 0, _ => none
  | fuel + 1, l =>
    match skipWs l with
    | '"' :: rest => (readStrBody rest []).map (fun p => (Json.str p.1, p.2))
    | '{' :: rest =>
      (match skipWs rest with
       | '}' :: r2 => some (Json.obj [], r2)
       | r2 => (readMembers fuel r2).map (fun p => (Json.obj p.1, p.2)))
    | '[' :: rest =>
      (match skipWs rest with
       | ']' :: r2 => some (Json.arr [], r2)
       | r2 => (readItems fuel r2).map (fun p => (Json.arr p.1, p.2)))
    | 't' :: 'r' :: 'u' :: 'e' :: rest => some (Json.bool true, rest)
    | 'f' :: 'a' :: 'l' :: 's' :: 'e' :: rest => some (Json.bool false, rest)
    | 'n' :: 'u' :: 'l' :: 'l' :: rest => some (Json.null, rest)
    | rest => readNum rest

/-- Read the comma-separated items of a non-empty JSON array, up to and
including the closing bracket. -/
def readItems : Nat → List Char → Option (List Json × List Char)
  | 0, _ => none
  | fuel + 1, l =>
    match readVal fuel l with
    | none => none
    | some (v, r) =>
      match skipWs r with
      | ',' :: r2 => (readItems fuel r2).map (fun p => (v :: p.1, p.2))
      | ']' :: r2 => some ([v], r2)
      | _ => none

/-- Read the comma-separated members of a non-empty JSON object, up to and
including the closing brace. -/
def readMembers : Nat → List Char → Option (List (String × Json) × List Char)
  | 0, _ => none
  | fuel + 1, l =>
    match skipWs l with
    | '"' :: rest =>
      (match readStrBody rest [] with
       | none => none
       | some (k, r) =>
         match skipWs r with
         | ':' :: r2 =>
           (match readVal fuel r2 with
            | none => none
            | some (v, r3) =>
              match skipWs r3 with
              | ',' :: r4 => (readMembers fuel r4).map (fun p => ((k, v) :: p.1, p.2))
              | '}' :: r4 => some ([(k, v)], r4)
              | _ => none)
         | _ => none)
    | _ => none

end

/-- Model of Python `json.loads`: read one value and require the remainder to
be whitespace only; `none` models a raised `json.JSONDecodeError`. -/
def json_loads (s : String) : Option Json :=
  match readVal (2 * s.length + 2) s.toList with
  | some (v, r) => if skipWs r = [] then some v else none
  | none => none

/-! ### The response validator (src/app.py, lines 89-128) -/

/-- The literal mapping built by the `except` branch of `analyze_with_gemini`
(app.py lines 122-128), with `e` the stringified exception. -/
def failure_result (e : String) : Json :=
  Json.obj
    [("score", Json.num 0),
     ("summary", Json.str ("AI Analysis Failed. Error: " ++ e)),
     ("grammar_errors", Json.arr []),
     ("missing_keywords", Json.arr []),
     ("improvements", Json.arr [Json.str "Check API Key or Internet connection."])]

/-- The pre-parse cleanup of app.py line 117:
`response.text.replace("```json", "").replace("```", "").strip()` written with double quotes here. -/
def clean_json_text (s : String) : String :=
  pyStrip (pyReplace (pyReplace s "```json" "") "```" "")

/-- Model of the stringified `json.JSONDecodeError` embedded in the diagnostic
summary when `json.loads` raises. -/
def json_decode_error_msg : String := "Expecting value"

/-- Embedding of `analyze_with_gemini` (app.py lines 89-128).  The external
engine call `model.generate_content(prompt)` is modelled by its outcome:
`.ok text` is a reply whose `.text` is `text`, `.error e` is a raised
exception with message `e`.  The reply is cleaned (line 117) and parsed
(line 118); any exception lands in the `except` branch (lines 120-128), which
returns the fixed failure mapping instead of raising. -/
def analyze_with_gemini (engine : Except String String) : Json :=
  match engine with
  | Except.error e => failure_result e
  | Except.ok text =>
    match json_loads (clean_json_text text) with
    | some j => j
    | none => failure_result json_decode_error_msg

/-- Modelled from the spec: the `failed` marker of the AnalysisResult of the spec
(§3) distinguishes the recovered-error path from a successful parse.  The code
has no such field — the `except` branch signals failure only through its fixed
diagnostic mapping — so the marker is defined as which branch of
`analyze_with_gemini` produced the result. -/
def analyze_failed (engine : Except String String) : Bool :=
  match engine with
  | Except.error _ => true
  | Except.ok text => (json_loads (clean_json_text text)).isNone

/-! ### The text extractor (src/app.py, lines 77-87) -/

/-- Embedding of `extract_text_from_pdf` (app.py lines 77-87).  The PyPDF2
reader is modelled by the outcome of opening and iterating the document:
`.error e` is any exception raised while opening or reading (unreadable or
corrupt container, or a page object that raises), caught by the `except`
branch; `.ok pages` is the page sequence, the per-page `extract_text()`
returning `none` for a page with no extractable text.  The loop
`text += page.extract_text() or ""` is the left fold. -/
def extract_text_from_pdf (doc : Except String (List (Option String))) : String :=
  match doc with
  | Except.error _ => ""
  | Except.ok pages => pages.foldl (fun text p => text ++ p.getD "") ""

/-! ### The ATS scanner route (src/app.py, lines 211-255) -/

/-- Observable outcome of one POST to the ATS scanner route: the analysis
value bound to `result` (still `none` when no analysis ran), the flashed
`(message, category)` pairs, and how many `generate_content` calls were made
to the reasoning engine. -/
structure AtsView where
  result : Option Json
  flashes : List (String × String)
  engine_calls : Nat

/-- The score stored on the persisted `ATSScan` row (app.py line 242):
`result.get("score", 0)`. -/
def ats_scan_score (result : Json) : Json :=
  (dictGet result "score").getD (Json.num 0)

/-- Embedding of the POST branch of `ats_tool` (app.py lines 216-255):
missing file part or empty filename flash a danger message and redirect;
`if file and jd:` skips the analysis when the job description is empty
(`None` modelled by `""`); empty extracted text flashes the warning of line
236 and leaves `result = None`; otherwise `analyze_with_gemini` runs, making
one `generate_content` call.  `extracted` is the value of
`extract_text_from_pdf(filepath)` for the saved upload and `engine` the
outcome of the engine call, as in `analyze_with_gemini`. -/
def ats_tool_post (hasFilePart : Bool) (filename : String) (jd : String)
    (extracted : String) (engine : Except String String) : AtsView :=
  if !hasFilePart then
    { result := none, flashes := [("No file part", "danger")], engine_calls := 0 }
  else if filename = "" then
    { result := none, flashes := [("No selected file", "danger")], engine_calls := 0 }
  else if jd = "" then
    { result := none, flashes := [], engine_calls := 0 }
  else if extracted = "" then
    { result := none,
      flashes := [("Could not read PDF. Make sure it contains text.", "warning")],
      engine_calls := 0 }
  else
    { result := some (analyze_with_gemini engine), flashes := [], engine_calls := 1 }

/-! ### The resume-builder summary step (src/app.py, lines 280-294) -/

/-- The fixed fallback sentence of app.py line 294. -/
def fallback_summary : String :=
  "Passionate student looking for opportunities to apply skills and grow."

/-- Outcome of the auto-summary step: the summary value the draft is saved
with, and how many `generate_content` calls were made. -/
structure SummaryOutcome where
  summary : String
  synth_calls : Nat
deriving DecidableEq

/-- Embedding of the AI auto-summary step of `resume_builder` (app.py lines
280-294).  `form_summary` is `request.form.get("summary")` (`none` when the
field is absent); `if not summary or summary.strip() == "":` triggers the
synthesize call, whose outcome is `engine` (`.ok t` a reply with text `t`,
`.error e` any exception); on success the summary is `ai_resp.text.strip()`,
on failure the fixed fallback sentence; a non-empty summary is kept verbatim
with no engine call. -/
def resume_builder_summary (form_summary : Option String)
    (engine : Except String String) : SummaryOutcome :=
  let isEmpty :=
    match form_summary with
    | none => true
    | some s => s = "" || pyStrip s = ""
  if isEmpty then
    match engine with
    | Except.ok t => { summary := pyStrip t, synth_calls := 1 }
    | Except.error _ => { summary := fallback_summary, synth_calls := 1 }
  else
    { summary := form_summary.getD "", synth_calls := 0 }

example : pyTitle "delhi uni" = "Delhi Uni" := rfl
example : smart_format_text "delhi uni" = "Delhi University" := rfl
example : smart_format_text "Delhi University" = "Delhi Universityversity" := rfl
example : smart_format_text "uni of delhi" = "Uni Of Delhi" := rfl
example : smart_format_text "delhi uni, 2020" = "Delhi University, 2020" := rfl
example : smart_format_skills "python, React  node.js,,java" = "Python, React, Node.Js, Java" := rfl
example : smart_format_skills "  python " = "Python" := rfl
example : json_loads "\x7b\"score\":82,\"summary\":\"ok\"\x7d" =
    some (Json.obj [("score", Json.num 82), ("summary", Json.str "ok")]) := rfl
example : json_loads "not json" = none := rfl
example : json_loads " [1, -2, true, null, \"x\"] " =
    some (Json.arr [Json.num 1, Json.num (-2), Json.bool true, Json.null, Json.str "x"]) := rfl
example : clean_json_text "```json\n\x7b\"score\":82\x7d\n```" = "\x7b\"score\":82\x7d" := rfl
example : analyze_with_gemini (Except.ok "```json\n\x7b\"score\":82,\"summary\":\"ok\"\x7d\n```") =
    Json.obj [("score", Json.num 82), ("summary", Json.str "ok")] := rfl
example : dictGet (Json.obj [("a", Json.num 1), ("a", Json.num 2)]) "a" = some (Json.num 2) := rfl

/-! ### Helper lemmas -/

/-- Every fragment produced by the run-splitting loop consists of
non-delimiter characters only. -/
theorem mem_splitDelimGo_no_delim (fuel : Nat) :
    ∀ (l : List Char), ∀ p ∈ splitDelimGo fuel l, ∀ c ∈ p, isDelim c = false := by
  induction fuel with
  | zero => intro l p hp; simp [splitDelimGo] at hp
  | succ fuel ih =>
    intro l p hp c hc
    simp only [splitDelimGo] at hp
    cases hrest : l.dropWhile (fun c => !isDelim c) with
    | nil =>
      rw [hrest] at hp
      simp only [List.mem_singleton] at hp
      subst hp
      have := List.mem_takeWhile_imp hc
      simpa using this
    | cons d tail =>
      rw [hrest] at hp
      rcases List.mem_cons.mp hp with hp | hp
      · subst hp
        have := List.mem_takeWhile_imp hc
        simpa using this
      · exact ih (tail.dropWhile isDelim) p hp c hc

/-- Dropping a prefix by a predicate that holds of no element is a no-op. -/
theorem dropWhile_eq_self_of_all {q : Char → Bool} {l : List Char}
    (h : ∀ c ∈ l, q c = false) : l.dropWhile q = l := by
  cases l with
  | nil => rfl
  | cons c rest => simp [List.dropWhile_cons, h c (List.mem_cons_self c rest)]

/-- Python `strip` is the identity on a string with no whitespace characters. -/
theorem pyStrip_eq_self_of_no_space {cs : List Char}
    (h : ∀ c ∈ cs, isPySpace c = false) : pyStrip (String.mk cs) = String.mk cs := by
  have h1 : cs.dropWhile isPySpace = cs := dropWhile_eq_self_of_all h
  have h2 : cs.reverse.dropWhile isPySpace = cs.reverse :=
    dropWhile_eq_self_of_all (fun c hc => h c (List.mem_reverse.mp hc))
  simp only [pyStrip, pyStripList]
  have htl : (String.mk cs).toList = cs := rfl
  rw [htl, h1, h2, List.reverse_reverse]

/-- A whitespace character is a delimiter of the skill splitter. -/
theorem isPySpace_isDelim {c : Char} (h : isDelim c = false) : isPySpace c = false := by
  simp only [isDelim, Bool.or_eq_false_iff] at h
  exact h.2

/-! ### Claim theorems -/

/-- C1: `smart_format_text` is claimed idempotent, with the `"Uni"` rewrite
never re-firing on `"University"`.  The code violates this: the second
rewrite `replace(" Uni", " University")` matches the four-character prefix of
`" University"` itself, so on the already-normalized output
`"Delhi University"` it produces `"Delhi Universityversity"`, and applying
the formatter twice differs from applying it once. -/
theorem smart_format_text_not_idempotent :
    smart_format_text "delhi uni" = "Delhi University" ∧
    smart_format_text (smart_format_text "delhi uni") = "Delhi Universityversity" ∧
    smart_format_text (smart_format_text "delhi uni") ≠ smart_format_text "delhi uni" :=
  ⟨rfl, rfl, by decide⟩

/-- C2: when the engine replied but the cleaned reply does not parse, the
validator returns, without raising, the standard failure mapping: score 0,
the error-path marker set, a diagnostic summary embedding the failure cause,
empty `grammar_errors` and `missing_keywords`, and `improvements` holding
exactly the one fixed remediation hint. -/
theorem analyze_parse_failure_contract (reply : String)
    (h : json_loads (clean_json_text reply) = none) :
    analyze_with_gemini (Except.ok reply) = failure_result json_decode_error_msg ∧
    analyze_failed (Except.ok reply) = true ∧
    dictGet (analyze_with_gemini (Except.ok reply)) "score" = some (Json.num 0) ∧
    dictGet (analyze_with_gemini (Except.ok reply)) "summary" =
      some (Json.str ("AI Analysis Failed. Error: " ++ json_decode_error_msg)) ∧
    dictGet (analyze_with_gemini (Except.ok reply)) "grammar_errors" =
      some (Json.arr []) ∧
    dictGet (analyze_with_gemini (Except.ok reply)) "missing_keywords" =
      some (Json.arr []) ∧
    dictGet (analyze_with_gemini (Except.ok reply)) "improvements" =
      some (Json.arr [Json.str "Check API Key or Internet connection."]) := by
  have hres : analyze_with_gemini (Except.ok reply) = failure_result json_decode_error_msg := by
    simp [analyze_with_gemini, h]
  refine ⟨hres, by simp [analyze_failed, h], ?_, ?_, ?_, ?_, ?_⟩ <;> rw [hres] <;> rfl

/-- Witness for C2: a prose-only engine reply fails to parse and yields the
fixed remediation hint. -/
theorem analyze_parse_failure_contract_witness :
    json_loads (clean_json_text "I am unable to rate this resume.") = none ∧
    dictGet (analyze_with_gemini (Except.ok "I am unable to rate this resume.")) "improvements" =
      some (Json.arr [Json.str "Check API Key or Internet connection."]) :=
  ⟨rfl, (analyze_parse_failure_contract "I am unable to rate this resume." rfl).2.2.2.2.2.2⟩

/-- C3 counterexample: on empty extracted text the ATS route does not return
a failure AnalysisResult at all — `result` stays `none` (no score, no
summary); it only flashes a warning, while indeed making zero engine calls. -/
theorem ats_tool_empty_text_counterexample :
    (ats_tool_post true "resume.pdf" "Looking for Go developer" ""
        (Except.ok "\x7b\"score\": 50\x7d")).result = none ∧
    (ats_tool_post true "resume.pdf" "Looking for Go developer" ""
        (Except.ok "\x7b\"score\": 50\x7d")).engine_calls = 0 ∧
    (ats_tool_post true "resume.pdf" "Looking for Go developer" ""
        (Except.ok "\x7b\"score\": 50\x7d")).flashes =
      [("Could not read PDF. Make sure it contains text.", "warning")] :=
  ⟨rfl, rfl, rfl⟩

/-- C3 amended: for every document whose extraction yields empty text (with a
file part, a filename and a job description present), the ATS route makes
zero engine calls and produces no analysis result; it flashes the fixed
warning instead of returning a failure AnalysisResult. -/
theorem ats_tool_empty_text_behavior (fn jd : String) (engine : Except String String)
    (hfn : fn ≠ "") (hjd : jd ≠ "") :
    (ats_tool_post true fn jd "" engine).result = none ∧
    (ats_tool_post true fn jd "" engine).engine_calls = 0 ∧
    (ats_tool_post true fn jd "" engine).flashes =
      [("Could not read PDF. Make sure it contains text.", "warning")] := by
  simp [ats_tool_post, hfn, hjd]

/-- Witness for C3: concrete filename and job description. -/
theorem ats_tool_empty_text_behavior_witness :
    ("resume.pdf" : String) ≠ "" ∧
    (ats_tool_post true "resume.pdf" "Go developer" "" (Except.error "quota")).result = none ∧
    (ats_tool_post true "resume.pdf" "Go developer" "" (Except.error "quota")).engine_calls = 0 :=
  ⟨by decide,
   (ats_tool_empty_text_behavior "resume.pdf" "Go developer" (Except.error "quota")
      (by decide) (by decide)).1,
   (ats_tool_empty_text_behavior "resume.pdf" "Go developer" (Except.error "quota")
      (by decide) (by decide)).2.1⟩

/-- C4 counterexample: for the parsed reply `{"score": 5, "extra": "x"}` the
validator neither defaults the missing contract fields (`grammar_errors` is
absent from the returned mapping, not an empty list) nor drops the unexpected
extra field (`extra` is retained with its value). -/
theorem analyze_coercion_counterexample :
    dictGet (analyze_with_gemini (Except.ok "\x7b\"score\": 5, \"extra\": \"x\"\x7d"))
      "grammar_errors" = none ∧
    dictGet (analyze_with_gemini (Except.ok "\x7b\"score\": 5, \"extra\": \"x\"\x7d"))
      "extra" = some (Json.str "x") :=
  ⟨rfl, rfl⟩

/-- C4 amended: when the cleaned reply parses, the validator returns the
parsed value verbatim — missing contract fields remain absent and extra
fields are retained; only when the scan is persisted is `score` read with a
default of 0 (`result.get("score", 0)`). -/
theorem analyze_parse_success_verbatim (reply : String) (j : Json)
    (h : json_loads (clean_json_text reply) = some j) :
    analyze_with_gemini (Except.ok reply) = j ∧
    analyze_failed (Except.ok reply) = false ∧
    (dictGet j "score" = none → ats_scan_score j = Json.num 0) := by
  refine ⟨by simp [analyze_with_gemini, h], by simp [analyze_failed, h], ?_⟩
  intro hs
  simp [ats_scan_score, hs]

/-- Witness for C4: a parsed object with no contract field is returned
verbatim and its persisted score defaults to 0. -/
theorem analyze_parse_success_verbatim_witness :
    json_loads (clean_json_text "\x7b\"extra\": 1\x7d") = some (Json.obj [("extra", Json.num 1)]) ∧
    analyze_with_gemini (Except.ok "\x7b\"extra\": 1\x7d") = Json.obj [("extra", Json.num 1)] ∧
    ats_scan_score (Json.obj [("extra", Json.num 1)]) = Json.num 0 :=
  ⟨rfl,
   (analyze_parse_success_verbatim "\x7b\"extra\": 1\x7d" (Json.obj [("extra", Json.num 1)]) rfl).1,
   (analyze_parse_success_verbatim "\x7b\"extra\": 1\x7d" (Json.obj [("extra", Json.num 1)]) rfl).2.2
     rfl⟩

/-- C5: an absent, empty or whitespace-only summary field triggers exactly one
synthesize call, and on an engine failure the summary becomes the fixed
non-empty fallback sentence; a non-whitespace summary is kept verbatim with
zero engine calls. -/
theorem resume_builder_summary_contract (form : Option String)
    (engine : Except String String) :
    ((form = none ∨ ∃ s, form = some s ∧ pyStrip s = "") →
      (resume_builder_summary form engine).synth_calls = 1 ∧
      (∀ e, engine = Except.error e →
        (resume_builder_summary form engine).summary = fallback_summary)) ∧
    (∀ s, form = some s → pyStrip s ≠ "" →
      resume_builder_summary form engine = { summary := s, synth_calls := 0 }) ∧
    fallback_summary ≠ "" := by
  refine ⟨?_, ?_, by decide⟩
  · rintro (rfl | ⟨s, rfl, hs⟩)
    · cases engine <;> simp [resume_builder_summary]
    · cases engine <;> simp [resume_builder_summary, hs]
  · rintro s rfl hs
    have hne : s ≠ "" := by
      intro hnil
      exact hs (by rw [hnil]; rfl)
    simp [resume_builder_summary, hs, hne]

/-- Witness for C5: a whitespace-only summary with a failing engine falls back
to the fixed sentence after one call; a real summary is kept with zero calls. -/
theorem resume_builder_summary_contract_witness :
    pyStrip "   " = "" ∧
    (resume_builder_summary (some "   ") (Except.error "engine down")).summary =
      fallback_summary ∧
    (resume_builder_summary (some "   ") (Except.error "engine down")).synth_calls = 1 ∧
    resume_builder_summary (some "Experienced dev") (Except.ok "ignored") =
      { summary := "Experienced dev", synth_calls := 0 } := by
  refine ⟨rfl, ?_, ?_, ?_⟩
  · exact ((resume_builder_summary_contract (some "   ") (Except.error "engine down")).1
      (Or.inr ⟨"   ", rfl, rfl⟩)).2 "engine down" rfl
  · exact ((resume_builder_summary_contract (some "   ") (Except.error "engine down")).1
      (Or.inr ⟨"   ", rfl, rfl⟩)).1
  · exact (resume_builder_summary_contract (some "Experienced dev") (Except.ok "ignored")).2.1
      "Experienced dev" rfl (by decide)

/-- C6: `smart_format_skills` splits on runs of commas and whitespace, drops
empty fragments, title-cases the remaining fragments and rejoins with
`", "`; the adjacent-delimiter example evaluates exactly as specified, and in
general the per-fragment `strip` is the identity (fragments contain no
delimiter, hence no whitespace), so the result is the title-cased non-empty
fragments of the run-split joined by `", "`. -/
theorem smart_format_skills_spec :
    smart_format_skills "python, React  node.js,,java" = "Python, React, Node.Js, Java" ∧
    ∀ s : String, smart_format_skills s =
      String.intercalate ", "
        ((((splitDelimRuns s.toList).map (fun cs => String.mk cs)).filter
            (fun p => p != "")).map pyTitle) := by
  refine ⟨rfl, fun s => ?_⟩
  by_cases hs : s = ""
  · subst hs; rfl
  · have hstrip : ∀ p ∈ (splitDelimRuns s.toList).map (fun cs => String.mk cs),
        pyStrip p = p := by
      intro p hp
      rcases List.mem_map.mp hp with ⟨cs, hcs, rfl⟩
      exact pyStrip_eq_self_of_no_space
        (fun c hc => isPySpace_isDelim
          (mem_splitDelimGo_no_delim (s.toList.length + 1) s.toList cs hcs c hc))
    simp only [smart_format_skills, if_neg hs]
    have hfilter :
        ((splitDelimRuns s.toList).map (fun cs => String.mk cs)).filter
            (fun p => pyStrip p != "") =
          ((splitDelimRuns s.toList).map (fun cs => String.mk cs)).filter
            (fun p => p != "") :=
      List.filter_congr (fun p hp => by rw [hstrip p hp])
    rw [hfilter]
    refine congrArg (String.intercalate ", ") (List.map_congr_left ?_)
    intro p hp
    rw [hstrip p (List.mem_of_mem_filter hp)]

/-- C7: a reply wrapping the contract object in markdown code fences is
cleaned of the fence markers and parsed, and the resulting value carries
`score = 82` exactly as given. -/
theorem analyze_fenced_reply_score :
    analyze_with_gemini
        (Except.ok "```json\n\x7b\"score\":82,\"summary\":\"ok\"\x7d\n```") =
      Json.obj [("score", Json.num 82), ("summary", Json.str "ok")] ∧
    dictGet (analyze_with_gemini
        (Except.ok "```json\n\x7b\"score\":82,\"summary\":\"ok\"\x7d\n```")) "score" =
      some (Json.num 82) ∧
    analyze_failed (Except.ok "```json\n\x7b\"score\":82,\"summary\":\"ok\"\x7d\n```") = false :=
  ⟨rfl, rfl, rfl⟩

/-- C8: the extractor returns the page texts concatenated in page order with
the empty string substituted for a page yielding no text, and returns the
empty string on any structural failure instead of signalling an error. -/
theorem extract_text_from_pdf_spec :
    (∀ e : String, extract_text_from_pdf (Except.error e) = "") ∧
    (∀ pages : List (Option String),
      extract_text_from_pdf (Except.ok pages) =
        String.join (pages.map (fun p => p.getD ""))) := by
  refine ⟨fun e => rfl, fun pages => ?_⟩
  simp [extract_text_from_pdf, String.join, List.foldl_map]

/-- C9: the pre-parse cleanup removes the literal fence substrings globally —
also inside JSON string values, where a valid reply is thereby altered before
parsing — removes `"```json"` before `"```"`, and strips surrounding
whitespace. -/
theorem clean_json_text_global_removal :
    json_loads "\x7b\"summary\": \"use ``` with care\"\x7d" =
      some (Json.obj [("summary", Json.str "use ``` with care")]) ∧
    clean_json_text "\x7b\"summary\": \"use ``` with care\"\x7d" =
      "\x7b\"summary\": \"use  with care\"\x7d" ∧
    clean_json_text "\x7b\"summary\": \"use ``` with care\"\x7d" ≠
      "\x7b\"summary\": \"use ``` with care\"\x7d" ∧
    analyze_with_gemini (Except.ok "\x7b\"summary\": \"use ``` with care\"\x7d") =
      Json.obj [("summary", Json.str "use  with care")] ∧
    clean_json_text "\x7b\"a\": \"x```jsony\"\x7d" = "\x7b\"a\": \"xy\"\x7d" ∧
    clean_json_text "  \x7b\"a\": 1\x7d\n" = "\x7b\"a\": 1\x7d" ∧
    clean_json_text "``````json" = "" :=
  ⟨rfl, rfl, by decide, rfl, rfl, rfl, rfl⟩

/-- C10 counterexample: a title-cased `"Uni"` followed by a comma is NOT left
unrewritten — the second replace requires nothing after `" Uni"`, so
`"delhi uni, 2020"` becomes `"Delhi University, 2020"`. -/
theorem smart_format_text_uni_comma_rewritten :
    smart_format_text "delhi uni, 2020" = "Delhi University, 2020" := rfl

/-- C10 amended: the `"Uni"` rewrite fires exactly when a space precedes it,
regardless of what follows: a string-initial `"Uni"` (no preceding space) is
left unrewritten, while `" Uni"` before a comma and a trailing `" Uni"` are
both rewritten. -/
theorem smart_format_text_uni_rewrite_behavior :
    smart_format_text "uni of delhi" = "Uni Of Delhi" ∧
    smart_format_text "delhi uni, 2020" = "Delhi University, 2020" ∧
    smart_format_text "delhi uni" = "Delhi University" :=
  ⟨rfl, rfl, rfl⟩

end ResumeMaker
